import Mathlib

/-!
Verification of the hermit futex-based thread parker
(src/core/src/thread_parker/hermit.rs).

The backend is embedded shallowly. The interaction with the host (the value
returned by each `Acquire` load of the futex word, the instant returned by
each `Instant::now()` call, and the raw return code of each `futex_wait`
syscall) is modelled as an oracle trace: a list of `Step` records, one per
iteration of the retry loop. `park` and `park_until` consume the trace and
return `none` when the trace is exhausted while the loop is still running,
or `some` result carrying the returned value together with the list of
`futex_wait` invocations that were issued (each recorded by the timespec
argument it was given, `none` meaning an unbounded wait).

Instants and durations are measured in nanoseconds as natural numbers;
`timeout - now` is exact because the code only forms it when `now < timeout`.
Machine-integer casts (`as i32`, `as time_t`) are modelled explicitly as
two's-complement wrapping on `Nat` inputs.
-/

set_option linter.unusedVariables false

namespace Hermit

/-- State-word value meaning "not parked" (`UNPARKED: u32 = 0`). -/
def UNPARKED : Nat := 0

/-- State-word value meaning "parked" (`PARKED: u32 = 1`). -/
def PARKED : Nat := 1

/-- hermit-abi errno `EAGAIN` (value mismatch reported by `futex_wait`). -/
def EAGAIN : Int := 11

/-- hermit-abi errno `ETIMEDOUT`. -/
def ETIMEDOUT : Int := 110

/-- `time_t::MAX as u64` where `time_t = i64` in hermit-abi. -/
def timeTMax : Nat := 9223372036854775807

/-- `i32::MAX`, the waiter count requested by `unpark`. -/
def i32MAX : Int := 2147483647

/-- Rust `ControlFlow<B, ()>` as used by `futex_wait_relative`: `Break`
carries the value `park_until` should return. -/
inductive ControlFlow (B : Type) where
  | Break : B → ControlFlow B
  | Continue : ControlFlow B
deriving DecidableEq

/-- hermit-abi `timespec` (relative timeout): `tv_sec : time_t = i64`,
`tv_nsec : i32`. -/
structure timespec where
  tv_sec : Int
  tv_nsec : Int
deriving DecidableEq

/-- One retry-loop iteration's host observations: the value the `Acquire`
load of the futex word returns, the instant `Instant::now()` returns
(nanoseconds), and the raw return code `futex_wait` would give if a wait
syscall is issued in this iteration. -/
structure Step where
  load : Nat
  now : Nat
  futexRet : Int
deriving DecidableEq

/-- Behaviour of `futex_return_unexpected`, indexed by build configuration. -/
inductive AssertBehavior where
  | panics
  | ignored
deriving DecidableEq

/-- `futex_return_unexpected(x)`: `panic!` under `cfg!(debug_assertions)`,
no-op otherwise; it never produces a value for the caller. -/
def futex_return_unexpected (debug_assertions : Bool) : AssertBehavior :=
  if debug_assertions then AssertBehavior.panics else AssertBehavior.ignored

/-- Classification a `futex_wait` return code receives inside
`futex_wait_relative`: the resulting control flow, and whether the code was
routed to `futex_return_unexpected`. -/
structure WaitClassify where
  flow : ControlFlow Bool
  unexpected : Bool
deriving DecidableEq

/-- `futex_wait_relative`, as a function of the raw syscall return `r`:
`0 ↦ Break true`, `-ETIMEDOUT ↦ Break false`, `-EAGAIN ↦ Continue`, and any
other code calls `futex_return_unexpected` and then falls through to
`Continue`. -/
def futex_wait_relative (r : Int) : WaitClassify :=
  if r = 0 then ⟨ControlFlow.Break true, false⟩
  else if r = -ETIMEDOUT then ⟨ControlFlow.Break false, false⟩
  else if r ≠ -EAGAIN then ⟨ControlFlow.Continue, true⟩
  else ⟨ControlFlow.Continue, false⟩

/-- Result of a completed `park`/`park_until` run: the value returned and
the list of `futex_wait` invocations issued, each recorded by its timespec
argument (`none` = null pointer = unbounded wait). -/
structure RunResult (α : Type) where
  ret : α
  calls : List (Option timespec)
deriving DecidableEq

/-- `park`: loop while the loaded word is not `UNPARKED`; each iteration
issues an unbounded `futex_wait`, returns on `Break` and re-loads on
`Continue`. `none` means the trace ended while the loop was still going. -/
def park : List Step → Option (RunResult Unit)
  | [] => none
  | s :: rest =>
    if s.load = UNPARKED then
      some ⟨(), []⟩
    else
      match (futex_wait_relative s.futexRet).flow with
      | ControlFlow.Break _ => some ⟨(), [none]⟩
      | ControlFlow.Continue =>
        Option.map (fun r => ⟨(), none :: r.calls⟩) (park rest)

/-- `Duration::as_secs` of a duration of `ns` nanoseconds. -/
def durAsSecs (ns : Nat) : Nat := ns / 1000000000

/-- `Duration::subsec_nanos` of a duration of `ns` nanoseconds. -/
def durSubsecNanos (ns : Nat) : Nat := ns % 1000000000

/-- The `as i32` cast of a u32-ranged value: two's-complement wrap. -/
def castI32 (n : Nat) : Int :=
  if n % 4294967296 < 2147483648 then ((n % 4294967296 : Nat) : Int)
  else ((n % 4294967296 : Nat) : Int) - 4294967296

/-- The `as time_t` (= `as i64`) cast of a u64-ranged value:
two's-complement wrap. -/
def castTimeT (n : Nat) : Int :=
  if n % 18446744073709551616 < 9223372036854775808 then
    ((n % 18446744073709551616 : Nat) : Int)
  else ((n % 18446744073709551616 : Nat) : Int) - 18446744073709551616

/-- The timespec `park_until` builds from the remaining duration `diff`
(nanoseconds): `tv_sec = diff.as_secs() as time_t`,
`tv_nsec = diff.subsec_nanos() as i32`. -/
def mkTimespec (diff : Nat) : timespec :=
  ⟨castTimeT (durAsSecs diff), castI32 (durSubsecNanos diff)⟩

/-- `park_until(timeout)`: loop while the loaded word is not `UNPARKED`;
each iteration re-reads `now`, returns `false` once `timeout <= now`, falls
back to `park` (then returns `true`) when the remaining whole seconds
exceed `time_t::MAX`, and otherwise issues a timed `futex_wait`, returning
the `Break` payload or re-looping on `Continue`. Falling out of the loop
returns `true`. -/
def park_until (timeout : Nat) : List Step → Option (RunResult Bool)
  | [] => none
  | s :: rest =>
    if s.load = UNPARKED then
      some ⟨true, []⟩
    else
      if timeout ≤ s.now then
        some ⟨false, []⟩
      else
        let diff := timeout - s.now
        if durAsSecs diff > timeTMax then
          Option.map (fun r => ⟨true, r.calls⟩) (park rest)
        else
          let ts := mkTimespec diff
          match (futex_wait_relative s.futexRet).flow with
          | ControlFlow.Break x => some ⟨x, [some ts]⟩
          | ControlFlow.Continue =>
            Option.map (fun r => ⟨r.ret, some ts :: r.calls⟩)
              (park_until timeout rest)

/-- `timed_out`: a `Relaxed` load of the futex word compared against
`UNPARKED`. -/
def timed_out (state : Nat) : Bool := state != UNPARKED

/-- `ThreadParker`: one atomic u32 word. -/
structure ThreadParker where
  futex : Nat
deriving DecidableEq

/-- `ThreadParker::new`: the word starts as `UNPARKED`. -/
def ThreadParker.new : ThreadParker := ⟨UNPARKED⟩

/-- `prepare_park`: store `PARKED` (Relaxed). -/
def prepare_park (p : ThreadParker) : ThreadParker := ⟨PARKED⟩

/-- `UnparkHandle`: carries only the address of the futex word, as an
opaque token. -/
structure UnparkHandle where
  futex : Nat
deriving DecidableEq

/-- `unpark_lock`: store `UNPARKED` (Release) and return a handle carrying
this parker's address. -/
def unpark_lock (p : ThreadParker) (addr : Nat) : ThreadParker × UnparkHandle :=
  (⟨UNPARKED⟩, ⟨addr⟩)

/-- The state-mutating operations the owning/unparking threads can perform
on the parker word between a given `unpark_lock` and a later `park`. -/
inductive Op where
  | prepare
  | unparkLock
deriving DecidableEq

/-- Effect of one operation on the parker word. -/
def applyOp (p : ThreadParker) : Op → ThreadParker
  | Op.prepare => prepare_park p
  | Op.unparkLock => (unpark_lock p 0).1

/-- Effect of a sequence of operations on the parker word. -/
def applyOps (p : ThreadParker) : List Op → ThreadParker
  | [] => p
  | o :: rest => applyOps (applyOp p o) rest

/-- Record of the effects of `UnparkHandle::unpark`, given the kernel's
return code `r` of `futex_wake`: the address woken, the waiter count
requested, and whether the return code was routed to
`futex_return_unexpected`. Nothing is ever returned to the caller. -/
structure UnparkOutcome where
  wakeAddr : Nat
  wakeCount : Int
  unexpected : Bool
deriving DecidableEq

/-- `unpark`: call `futex_wake(self.futex, i32::MAX)`; return codes outside
`{0, 1}` go to `futex_return_unexpected`. -/
def unpark (h : UnparkHandle) (r : Int) : UnparkOutcome :=
  ⟨h.futex, i32MAX, decide (r < 0 ∨ r > 1)⟩

/-- Claim C1 as stated by the spec: after a success (0) return from the
wait primitive the retry loop continues and the state word is re-read, so a
trace that ends right after the successful wait leaves the run incomplete
(`none`), the function never concluding without a further load. -/
def C1_claim : Prop :=
  ∀ s : Step, s.load ≠ UNPARKED → s.futexRet = 0 → park [s] = none

theorem applyOps_stays_unparked (ops : List Op) :
    Op.prepare ∉ ops → (applyOps ⟨UNPARKED⟩ ops).futex = UNPARKED := by
  induction ops with
  | nil => intro h; rfl
  | cons o rest ih =>
    intro h
    cases o with
    | prepare => exact absurd (List.mem_cons_self _ _) h
    | unparkLock =>
      have h2 : Op.prepare ∉ rest := fun hm => h (List.mem_cons_of_mem _ hm)
      have hstep : applyOps (⟨UNPARKED⟩ : ThreadParker) (Op.unparkLock :: rest)
          = applyOps ⟨UNPARKED⟩ rest := by
        simp [applyOps, applyOp, unpark_lock, UNPARKED]
      rw [hstep]
      exact ih h2

/-- C1: the claim as stated is false of the code: when `futex_wait` returns
the success code 0, `futex_wait_relative` yields `Break true` and `park`
returns at once — the loop does not continue and the state word is not
re-read, as the completed run on a single-step trace shows. -/
theorem C1_counterexample : ¬ C1_claim := by
  intro hcl
  have h := hcl ⟨1, 0, 0⟩ (by decide) rfl
  exact absurd h (by decide)

/-- C1 (amended): when the wait primitive returns the success (woken)
status, `park` and `park_until` return immediately — `park` returns and
`park_until` returns `true` after exactly the one wait syscall, without
re-reading the state word. -/
theorem C1_success_returns_without_reread (s : Step) (rest : List Step)
    (timeout : Nat)
    (h1 : s.load ≠ UNPARKED) (h2 : s.futexRet = 0)
    (h3 : s.now < timeout) (h4 : durAsSecs (timeout - s.now) ≤ timeTMax) :
    park (s :: rest) = some ⟨(), [none]⟩ ∧
    park_until timeout (s :: rest)
      = some ⟨true, [some (mkTimespec (timeout - s.now))]⟩ := by
  have hw : (futex_wait_relative s.futexRet).flow = ControlFlow.Break true := by
    rw [h2]; rfl
  constructor
  · simp only [park, if_neg h1, hw]
  · simp only [park_until, if_neg h1, hw,
      if_neg (by omega : ¬ timeout ≤ s.now),
      if_neg (by omega : ¬ durAsSecs (timeout - s.now) > timeTMax)]

/-- Witness for C1's amended theorem at a concrete input. -/
theorem C1_witness :
    (⟨1, 0, 0⟩ : Step).load ≠ UNPARKED ∧
    park [⟨1, 0, 0⟩] = some ⟨(), [none]⟩ ∧
    park_until 5 [⟨1, 0, 0⟩] = some ⟨true, [some (mkTimespec 5)]⟩ :=
  ⟨by decide,
    (C1_success_returns_without_reread ⟨1, 0, 0⟩ [] 5 (by decide) rfl
      (by decide) (by decide)).1,
    (C1_success_returns_without_reread ⟨1, 0, 0⟩ [] 5 (by decide) rfl
      (by decide) (by decide)).2⟩

/-- C2: when on a retry the remaining duration's whole seconds exceed
`time_t::MAX`, `park_until` falls back to the unbounded `park` path and, as
soon as that park completes, returns `true` — never an error. -/
theorem C2_overflow_falls_back_to_park (timeout : Nat) (s : Step)
    (rest : List Step) (r : RunResult Unit)
    (h1 : s.load ≠ UNPARKED) (h2 : s.now < timeout)
    (h3 : timeTMax < durAsSecs (timeout - s.now))
    (h4 : park rest = some r) :
    park_until timeout (s :: rest) = some ⟨true, r.calls⟩ := by
  simp only [park_until, if_neg h1,
    if_neg (by omega : ¬ timeout ≤ s.now),
    if_pos (by omega : durAsSecs (timeout - s.now) > timeTMax),
    h4]
  rfl

/-- Witness for C2 at a deadline 10^28 ns in the future (10^19 whole
seconds, exceeding time_t::MAX). -/
theorem C2_witness :
    timeTMax < durAsSecs (10000000000000000000000000000 - 0) ∧
    park_until 10000000000000000000000000000 [⟨1, 0, 0⟩, ⟨0, 0, 0⟩]
      = some ⟨true, []⟩ :=
  ⟨by decide,
    C2_overflow_falls_back_to_park 10000000000000000000000000000 ⟨1, 0, 0⟩
      [⟨0, 0, 0⟩] ⟨(), []⟩ (by decide) (by decide) (by decide) (by decide)⟩

/-- C3: with the state word still `PARKED`, a `park_until` whose deadline
is at or before the current instant returns `false` immediately, issuing no
wait syscall. -/
theorem C3_past_deadline_returns_false (timeout : Nat) (s : Step)
    (rest : List Step)
    (h1 : s.load = PARKED) (h2 : timeout ≤ s.now) :
    park_until timeout (s :: rest) = some ⟨false, []⟩ := by
  have h1n : s.load ≠ UNPARKED := by rw [h1]; decide
  simp only [park_until, if_neg h1n, if_pos h2]

/-- Witness for C3: deadline 5, now 7, word parked. -/
theorem C3_witness :
    (⟨1, 7, 0⟩ : Step).load = PARKED ∧ (5 : Nat) ≤ 7 ∧
    park_until 5 [⟨1, 7, 0⟩] = some ⟨false, []⟩ :=
  ⟨rfl, by decide, C3_past_deadline_returns_false 5 ⟨1, 7, 0⟩ [] rfl (by decide)⟩

/-- C4: `timed_out` returns `true` exactly when the state word read at the
moment of the query is not `UNPARKED`. -/
theorem C4_timed_out_iff (state : Nat) :
    timed_out state = true ↔ state ≠ UNPARKED := by
  simp [timed_out]

/-- C5: once `unpark_lock` has run, as long as no `prepare_park` follows it
(the other operation, another `unpark_lock`, keeps the word `UNPARKED`), a
subsequent `park` returns at the first acquire load, with no wait
syscall. -/
theorem C5_park_after_unpark_is_immediate (p : ThreadParker) (addr n : Nat)
    (fr : Int) (ops : List Op) (rest : List Step)
    (h : Op.prepare ∉ ops) :
    park (⟨(applyOps (unpark_lock p addr).1 ops).futex, n, fr⟩ :: rest)
      = some ⟨(), []⟩ := by
  have hu : (applyOps (unpark_lock p addr).1 ops).futex = UNPARKED := by
    have hl : (unpark_lock p addr).1 = ⟨UNPARKED⟩ := rfl
    rw [hl]
    exact applyOps_stays_unparked ops h
  simp [park, hu]

/-- Witness for C5: parker word set by unpark_lock, then one more
unpark_lock, then park. -/
theorem C5_witness :
    Op.prepare ∉ [Op.unparkLock] ∧
    park [⟨(applyOps (unpark_lock ⟨1⟩ 7).1 [Op.unparkLock]).futex, 0, 0⟩]
      = some ⟨(), []⟩ :=
  ⟨by decide,
    C5_park_after_unpark_is_immediate ⟨1⟩ 7 0 0 [Op.unparkLock] [] (by decide)⟩

/-- C6: a wait return code outside `{0, -ETIMEDOUT, -EAGAIN}`, or a wake
return outside `{0, 1}`, is routed to `futex_return_unexpected` — which
panics exactly in debug builds and is a no-op in release builds — and is
never escalated to the caller: the wait loop just continues. -/
theorem C6_unexpected_never_escalated (r w : Int) (a : Nat)
    (hr : r ≠ 0 ∧ r ≠ -ETIMEDOUT ∧ r ≠ -EAGAIN) (hw : w < 0 ∨ 1 < w) :
    (futex_wait_relative r).unexpected = true ∧
    (futex_wait_relative r).flow = ControlFlow.Continue ∧
    (unpark ⟨a⟩ w).unexpected = true ∧
    futex_return_unexpected true = AssertBehavior.panics ∧
    futex_return_unexpected false = AssertBehavior.ignored := by
  obtain ⟨hr0, hrt, hra⟩ := hr
  refine ⟨?_, ?_, ?_, rfl, rfl⟩
  · simp [futex_wait_relative, hr0, hrt, hra]
  · simp [futex_wait_relative, hr0, hrt, hra]
  · simpa [unpark] using hw

/-- Witness for C6: wait code 5, wake code 2. -/
theorem C6_witness :
    (futex_wait_relative 5).unexpected = true ∧
    (futex_wait_relative 5).flow = ControlFlow.Continue ∧
    (unpark ⟨0⟩ 2).unexpected = true ∧
    futex_return_unexpected true = AssertBehavior.panics ∧
    futex_return_unexpected false = AssertBehavior.ignored :=
  C6_unexpected_never_escalated 5 2 0 (by decide) (by decide)

/-- C7: every `unpark` requests `i32::MAX` waiters from `futex_wake`, the
maximum representable count. -/
theorem C7_unpark_requests_max_waiters (a : Nat) (r : Int) :
    (unpark ⟨a⟩ r).wakeCount = i32MAX ∧ i32MAX = 2 ^ 31 - 1 :=
  ⟨rfl, by decide⟩

/-- C8: if the state word is already `UNPARKED` when `park_until` is
entered, it returns `true` with no wait syscall, for every deadline —
including one already in the past (the clock is never compared). -/
theorem C8_unparked_entry_returns_true (timeout : Nat) (s : Step)
    (rest : List Step) (h : s.load = UNPARKED) :
    park_until timeout (s :: rest) = some ⟨true, []⟩ := by
  simp [park_until, h]

/-- Witness for C8: deadline 0 already in the past of now = 5, word
unparked — still returns true. -/
theorem C8_witness :
    (0 : Nat) ≤ 5 ∧ park_until 0 [⟨0, 5, 0⟩] = some ⟨true, []⟩ :=
  ⟨by decide, C8_unparked_entry_returns_true 0 ⟨0, 5, 0⟩ [] rfl⟩

/-- C9: `unpark` flags a wake return code as unexpected exactly when it is
negative or greater than 1; 0 and 1 are accepted, and in either case the
caller receives no error value. -/
theorem C9_wake_return_classification (a : Nat) (r : Int) :
    (unpark ⟨a⟩ r).unexpected = true ↔ (r < 0 ∨ 1 < r) := by
  simp [unpark]

/-- C10: for the remaining duration formed after the deadline check and the
overflow guard, the sub-second nanoseconds are strictly below 10^9, so the
`as i32` cast is the identity on them, and the whole seconds are at most
`time_t::MAX`, so the `as time_t` cast is the identity too: the timespec
passed to `futex_wait` is exact. -/
theorem C10_conversion_lossless (timeout now : Nat)
    (h1 : now < timeout) (h2 : durAsSecs (timeout - now) ≤ timeTMax) :
    durSubsecNanos (timeout - now) < 1000000000 ∧
    (mkTimespec (timeout - now)).tv_nsec
      = (durSubsecNanos (timeout - now) : Int) ∧
    (mkTimespec (timeout - now)).tv_sec
      = (durAsSecs (timeout - now) : Int) := by
  have hn : durSubsecNanos (timeout - now) < 1000000000 :=
    Nat.mod_lt _ (by norm_num)
  refine ⟨hn, ?_, ?_⟩
  · have h32 : durSubsecNanos (timeout - now) % 4294967296
        = durSubsecNanos (timeout - now) := Nat.mod_eq_of_lt (by omega)
    simp only [mkTimespec, castI32, h32]
    rw [if_pos (by omega)]
  · have hs : durAsSecs (timeout - now) ≤ 9223372036854775807 := by
      simpa [timeTMax] using h2
    have h64 : durAsSecs (timeout - now) % 18446744073709551616
        = durAsSecs (timeout - now) := Nat.mod_eq_of_lt (by omega)
    simp only [mkTimespec, castTimeT, h64]
    rw [if_pos (by omega)]

/-- Witness for C10: remaining duration 2.5 s. -/
theorem C10_witness :
    durSubsecNanos (2500000000 - 0) < 1000000000 ∧
    (mkTimespec (2500000000 - 0)).tv_nsec
      = (durSubsecNanos (2500000000 - 0) : Int) ∧
    (mkTimespec (2500000000 - 0)).tv_sec
      = (durAsSecs (2500000000 - 0) : Int) :=
  C10_conversion_lossless 2500000000 0 (by decide) (by decide)

end Hermit
